import Mathlib

/-!
Shallow embedding of the agentcash-telemetry core (src/src/telemetry.ts,
src/src/extract-wallet.ts) and proofs about it.

Conventions of the embedding:
* The web `Headers` object is a case-insensitive multimap; we model it as an
  association list with case-insensitive first-match lookup (`hget`).
* JavaScript string truthiness (`if (s)`) is `¬ s.isEmpty` on a present value.
* Code that can throw is modelled in `Except Unit`; a `try/catch` is a `match`
  on the `Except` value.
* The two external payment-header decoders (`@x402/core`'s
  `decodePaymentSignatureHeader` and the manual base64+JSON fallback) are
  collaborators supplied from outside; they are parameters `dx` and `db` of
  type `String → Option PaymentPayload` (decode failure / thrown decode error
  is `none`).
-/

/-- JavaScript `String.prototype.toLowerCase` (ASCII-faithful): lower-case each
character. Defined by structural recursion over the character list so that the
kernel can evaluate it on concrete strings (core's `String.toLower` is defined
by well-founded recursion and does not reduce). -/
def jsToLower (s : String) : String := ⟨s.data.map Char.toLower⟩

/-- Header map: association list of (name, value); lookup is case-insensitive
and returns the first match, as the web Headers API does. -/
def HeaderMap := List (String × String)

/-- Case-insensitive header lookup (`headers.get(name)`); `none` is JS `null`. -/
def hget (h : HeaderMap) (name : String) : Option String :=
  (List.find? (fun p => jsToLower p.1 == jsToLower name) h).map (fun p => p.2)

/-- Shape of the decoded x402 payment payload's `authorization` field.
The source field `from` is a Lean keyword, rendered `fromAddr`. -/
structure PaymentAuthorization where
  fromAddr : Option String

/-- Inner `payload` object of the decoded payment header: optional nested
`authorization.from` and optional flat `from`. -/
structure PaymentPayloadInner where
  authorization : Option PaymentAuthorization
  fromAddr : Option String

/-- Result of a successful payment-header decode: `{ payload?: ... }`. -/
structure PaymentPayload where
  payload : Option PaymentPayloadInner

/-- The expression `payment?.payload?.authorization?.from ?? payment?.payload?.from`
from src/src/extract-wallet.ts: nested shape first, then the flat shape. -/
def payloadFrom (p : PaymentPayload) : Option String :=
  match p.payload.bind (fun pl => pl.authorization.bind (fun a => a.fromAddr)) with
  | some v => some v
  | none => p.payload.bind (fun pl => pl.fromAddr)

/-- The nested `payload.authorization.from` field of a decoded payload. -/
def nestedFromOf (p : PaymentPayload) : Option String :=
  p.payload.bind (fun pl => pl.authorization.bind (fun a => a.fromAddr))

/-- The flat `payload.from` field of a decoded payload. -/
def flatFromOf (p : PaymentPayload) : Option String :=
  p.payload.bind (fun pl => pl.fromAddr)

/-- Decode step of extract-wallet.ts lines 29-50: try the @x402/core decoder
`dx`; on its failure (exception, modelled `none`) fall back to the manual
base64+JSON decoder `db`; read the payer via `payloadFrom`, lower-cased; a
non-string / absent payer yields `null`. -/
def decodePayment (dx db : String → Option PaymentPayload) (h : String) : Option String :=
  match dx h with
  | some payment => (payloadFrom payment).map jsToLower
  | none =>
    match db h with
    | some decoded => (payloadFrom decoded).map jsToLower
    | none => none

/-- Sequencing of `a ?? rest` over fallible header reads: propagate a thrown
read, keep a non-null value, otherwise evaluate the rest of the chain. -/
def orElseGet (x : Except Unit (Option String)) (next : Unit → Except Unit (Option String)) :
    Except Unit (Option String) :=
  match x with
  | .error e => .error e
  | .ok (some v) => .ok (some v)
  | .ok none => next ()

/-- Lines 20-50 of extract-wallet.ts: the `PAYMENT-SIGNATURE ?? payment-signature
?? X-PAYMENT ?? x-payment` chain, the `if (!paymentHeader) return null` falsy
check (null or empty string), then the decode step. -/
def paymentSection (dx db : String → Option PaymentPayload)
    (get : String → Except Unit (Option String)) : Except Unit (Option String) :=
  match orElseGet (get "PAYMENT-SIGNATURE") (fun _ =>
        orElseGet (get "payment-signature") (fun _ =>
        orElseGet (get "X-PAYMENT") (fun _ => get "x-payment"))) with
  | .error e => .error e
  | .ok none => .ok none
  | .ok (some h) => if h.isEmpty then .ok none else .ok (decodePayment dx db h)

/-- Body of `extractVerifiedWallet` before its outer catch, over a fallible
header-read function `get`: the `x-payer-address` check (JS truthiness: null or
empty string falls through) and then the payment-header section. -/
def extractVerifiedWalletE (dx db : String → Option PaymentPayload)
    (get : String → Except Unit (Option String)) : Except Unit (Option String) :=
  match get "x-payer-address" with
  | .error e => .error e
  | .ok (some p) =>
      if p.isEmpty then paymentSection dx db get else .ok (some (jsToLower p))
  | .ok none => paymentSection dx db get

/-- `extractVerifiedWallet` with its outer try/catch (lines 13, 51-53): any
internal failure yields `null`, never an exception. -/
def extractVerifiedWalletWith (dx db : String → Option PaymentPayload)
    (get : String → Except Unit (Option String)) : Option String :=
  match extractVerifiedWalletE dx db get with
  | .ok v => v
  | .error _ => none

/-- The standalone `extractVerifiedWallet(headers)` of src/src/extract-wallet.ts,
where the header reads are plain lookups in the given header map. -/
def extractVerifiedWallet (dx db : String → Option PaymentPayload)
    (headers : HeaderMap) : Option String :=
  extractVerifiedWalletWith dx db (fun n => .ok (hget headers n))

/-- The `?? ` chain over the four payment-header names, for non-failing reads:
first non-null of PAYMENT-SIGNATURE, payment-signature, X-PAYMENT, x-payment. -/
def paymentHeaderOf (hs : HeaderMap) : Option String :=
  match hget hs "PAYMENT-SIGNATURE" with
  | some v => some v
  | none =>
    match hget hs "payment-signature" with
    | some v => some v
    | none =>
      match hget hs "X-PAYMENT" with
      | some v => some v
      | none => hget hs "x-payment"

/-!
The request interceptor `withTelemetry` (src/src/telemetry.ts).
-/

/-- A NextRequest, as far as the wrapper reads it. `failOn` injects faults into
`headers.get`: reads of a name with `failOn name = true` throw (the source wraps
every header read in try/catch, so reads are modelled fallible). `bodyText` is
what `clone().text()` resolves to; `bodyReadFails` makes that read reject. -/
structure Request where
  headers : HeaderMap
  failOn : String → Bool
  method : String
  pathname : String
  urlOrigin : String
  bodyText : String
  bodyReadFails : Bool

/-- Fallible header read on a request: `request.headers.get(name)`. -/
def Request.getH (req : Request) (name : String) : Except Unit (Option String) :=
  if req.failOn name then .error () else .ok (hget req.headers name)

/-- A NextResponse, as far as the wrapper reads it. `bodyReadFails` makes the
`response.clone().text()` capture reject. -/
structure Response where
  status : Nat
  headers : HeaderMap
  bodyText : String
  bodyReadFails : Bool

/-- A thrown value that is not a NextResponse: its JS truthiness (a thrown
`null`, `undefined`, `''` or `0` is falsy; every `Error` instance, being an
object, is truthy), the `instanceof Error` flag, and the message carried when
it is an Error. -/
structure ErrVal where
  truthy : Bool
  isErrorInstance : Bool
  message : String

/-- Line 92: `error instanceof Error ? error.message : 'Internal server error'`. -/
def messageOf (e : ErrVal) : String :=
  if e.isErrorInstance then e.message else "Internal server error"

/-- Hexadecimal digit character (lower case), as JSON.stringify emits. -/
def hexDigit (n : Nat) : Char :=
  if n < 10 then Char.ofNat (48 + n) else Char.ofNat (87 + n)

/-- Four-digit hexadecimal rendering of a code point below 0x10000. -/
def hex4 (n : Nat) : String :=
  String.mk [hexDigit ((n / 4096) % 16), hexDigit ((n / 256) % 16),
             hexDigit ((n / 16) % 16), hexDigit (n % 16)]

/-- JSON string escaping of one character, as JSON.stringify performs it:
quote, backslash and the named control escapes, `\uNNNN` for the remaining
control characters, the character itself otherwise. -/
def jsonEscapeChar (c : Char) : String :=
  if c.toNat = 34 then "\\\""
  else if c.toNat = 92 then "\\\\"
  else if c.toNat = 8 then "\\b"
  else if c.toNat = 9 then "\\t"
  else if c.toNat = 10 then "\\n"
  else if c.toNat = 12 then "\\f"
  else if c.toNat = 13 then "\\r"
  else if c.toNat < 32 then "\\u" ++ hex4 c.toNat
  else String.singleton c

/-- JSON string escaping, character by character. -/
def jsonEscape (s : String) : String :=
  String.join (s.data.map jsonEscapeChar)

/-- Serialized body of `NextResponse.json({ success: false, error: message })`,
with the message JSON-escaped as the serializer does. -/
def errorResponseBody (message : String) : String :=
  "\x7b\"success\":false,\"error\":\"" ++ jsonEscape message ++ "\"\x7d"

/-- Line 93: the synthesized 500 response for a non-response handler error. -/
def jsonErrorResponse (message : String) : Response :=
  { status := 500
    headers := [("content-type", "application/json")]
    bodyText := errorResponseBody message
    bodyReadFails := false }

/-- `statusTextFromCode` (telemetry.ts lines 143-168): canonical reason phrase
for ten known codes, decimal string otherwise (`String(code)`). -/
def statusTextFromCode (code : Nat) : String :=
  if code = 200 then "OK"
  else if code = 201 then "Created"
  else if code = 204 then "No Content"
  else if code = 400 then "Bad Request"
  else if code = 401 then "Unauthorized"
  else if code = 402 then "Payment Required"
  else if code = 403 then "Forbidden"
  else if code = 404 then "Not Found"
  else if code = 500 then "Internal Server Error"
  else if code = 504 then "Gateway Timeout"
  else toString code

/-- The ClickHouse row shape (types.ts, as used by telemetry.ts lines 107-127). -/
structure McpResourceInvocation where
  id : String
  x_wallet_address : Option String
  x_client_id : Option String
  session_id : Option String
  verified_wallet_address : Option String
  method : String
  route : String
  origin : String
  referer : Option String
  request_content_type : Option String
  request_headers : Option String
  request_body : Option String
  status_code : Nat
  status_text : String
  duration : Nat
  response_content_type : Option String
  response_headers : String
  response_body : Option String
  created_at : Nat

/-- Abstraction of `JSON.stringify(Object.fromEntries(headers.entries()))`: an
executable serialization of a header map; its exact format carries no claim. -/
def serializeHeaders (h : HeaderMap) : String :=
  String.intercalate ";" (h.map (fun p => p.1 ++ "=" ++ p.2))

/-- Modelled from the spec: `getOrigin` lives in src/init.ts, which is not among
the provided sources. Per the spec and README the origin is an optional value
configured once at `initTelemetry`; `getOrigin()` returns it, or null when it
was not configured. We model the configuration as the parameter `originCfg`. -/
def getOrigin (originCfg : Option String) : Option String := originCfg

/-- The local variables of telemetry.ts lines 30-40, with their initializers. -/
structure IdentityFields where
  walletAddress : Option String := none
  clientId : Option String := none
  sessionId : Option String := none
  referer : Option String := none
  requestContentType : Option String := none
  route : String := ""
  method : String := ""
  origin : String := ""
  verifiedWallet : Option String := none
  requestHeadersJson : Option String := none

/-- The identity-extraction try block (telemetry.ts lines 42-55): the reads run
in sequence inside one try/catch, so the first throwing read aborts the block,
keeping the assignments already made and leaving the rest at their defaults.
`extractVerifiedWallet` catches its own read failures, so it never aborts the
block. -/
def extractIdentity (dx db : String → Option PaymentPayload) (originCfg : Option String)
    (req : Request) : IdentityFields :=
  let f : IdentityFields := {}
  match req.getH "X-Wallet-Address" with
  | .error _ => f
  | .ok w =>
  let f := { f with walletAddress := w.map jsToLower }
  match req.getH "X-Client-ID" with
  | .error _ => f
  | .ok c =>
  let f := { f with clientId := c }
  match req.getH "X-Session-ID" with
  | .error _ => f
  | .ok s =>
  let f := { f with sessionId := s }
  match req.getH "Referer" with
  | .error _ => f
  | .ok r =>
  let f := { f with referer := r }
  match req.getH "content-type" with
  | .error _ => f
  | .ok ct =>
  let f := { f with
    requestContentType := ct
    route := req.pathname
    method := req.method
    origin := (getOrigin originCfg).getD req.urlOrigin
    verifiedWallet := extractVerifiedWalletWith dx db req.getH }
  { f with requestHeadersJson := some (serializeHeaders req.headers) }

/-- The mutable telemetry context handed to the handler, at construction time
(telemetry.ts lines 58-67); the setter's effect is modelled separately via the
handler's recorded `setCalls`. -/
structure TelemetryContext where
  walletAddress : Option String
  clientId : Option String
  sessionId : Option String
  verifiedWallet : Option String

/-- The context value built at telemetry.ts lines 58-67 for a given request. -/
def ctxFor (dx db : String → Option PaymentPayload) (originCfg : Option String)
    (req : Request) : TelemetryContext :=
  let f := extractIdentity dx db originCfg req
  { walletAddress := f.walletAddress
    clientId := f.clientId
    sessionId := f.sessionId
    verifiedWallet := f.verifiedWallet }

/-- Outcome of one handler invocation: return a response, throw a NextResponse
(the SIWX challenge pattern), or throw any other value. -/
inductive HandlerResult where
  | ok (r : Response)
  | throwResponse (r : Response)
  | throwError (e : ErrVal)

/-- Observable behaviour of one handler invocation: the arguments of its
`ctx.setVerifiedWallet` calls, in order, and how it finishes. -/
structure HandlerBehavior where
  setCalls : List String
  result : HandlerResult

/-- A wrapped handler: a function of the request and the telemetry context. -/
def Handler := Request → TelemetryContext → HandlerBehavior

/-- Modelled from the spec: `insertInvocation` lives in src/clickhouse.ts, which
is not among the provided sources. Per the spec and README it attempts one
insert of the row into the sink and may fail (outage, missing config); the
wrapper swallows the failure. The attempt is the returned row; success or
failure of the write is driven by `sinkFails`. -/
def insertInvocation (sinkFails : Bool) (inv : McpResourceInvocation) :
    McpResourceInvocation × Except Unit Unit :=
  (inv, if sinkFails then .error () else .ok ())

/-- What one run of the wrapped handler produces: the caller-visible outcome
(`.ok` a response, `.error` a re-thrown handler error), the record-write
attempts made, and the sink results of those attempts. -/
structure RunResult where
  outcome : Except ErrVal Response
  inserts : List McpResourceInvocation
  sinkResults : List (Except Unit Unit)

/-- `withTelemetry(handler)` applied to one request (telemetry.ts lines 24-141).
`requestId` stands for `randomUUID()`, `elapsedMs` for `Date.now() - startTime`,
`nowMs` for `new Date()` at write time; `sinkFails` drives the sink collaborator.
Steps, in source order: the identity try-block; the body capture for
POST/PUT/PATCH (using the extracted `method` variable, which is `""` if the
try block aborted early); the handler call; error normalization (a thrown
NextResponse becomes the outcome, any other thrown value becomes a synthesized
500 response); the response-body capture; record assembly; the insert attempt
inside its own try/catch; the guarded re-throw of the handler error
(`if (handlerError && !(handlerError instanceof NextResponse))`, so a falsy
thrown value is not re-raised); and the response return. -/
def withTelemetry (dx db : String → Option PaymentPayload) (originCfg : Option String)
    (sinkFails : Bool) (handler : Handler) (requestId : String)
    (elapsedMs nowMs : Nat) (req : Request) : RunResult :=
  let f := extractIdentity dx db originCfg req
  let requestBodyString : Option String :=
    if f.method = "POST" ∨ f.method = "PUT" ∨ f.method = "PATCH" then
      if req.bodyReadFails then none
      else if req.bodyText.isEmpty then none
      else some req.bodyText
    else none
  let hb := handler req (ctxFor dx db originCfg req)
  let verifiedWallet : Option String :=
    hb.setCalls.foldl (fun _ a => some (jsToLower a)) f.verifiedWallet
  let response : Response :=
    match hb.result with
    | .ok r => r
    | .throwResponse r => r
    | .throwError e => jsonErrorResponse (messageOf e)
  let responseBodyString : Option String :=
    if response.bodyReadFails then none else some response.bodyText
  let invocation : McpResourceInvocation :=
    { id := requestId
      x_wallet_address := f.walletAddress
      x_client_id := f.clientId
      session_id := f.sessionId
      verified_wallet_address := verifiedWallet
      method := f.method
      route := f.route
      origin := f.origin
      referer := f.referer
      request_content_type := f.requestContentType
      request_headers := f.requestHeadersJson
      request_body := requestBodyString
      status_code := response.status
      status_text := statusTextFromCode response.status
      duration := elapsedMs
      response_content_type := hget response.headers "content-type"
      response_headers := serializeHeaders response.headers
      response_body := responseBodyString
      created_at := nowMs }
  let sinkResult := (insertInvocation sinkFails invocation).2
  let outcome : Except ErrVal Response :=
    match hb.result with
    | .throwError e => if e.truthy then .error e else .ok response
    | .ok _ => .ok response
    | .throwResponse _ => .ok response
  { outcome := outcome
    inserts := [invocation]
    sinkResults := [sinkResult] }

/-!
Concrete example material used by witnesses and counterexamples.
-/

/-- Decoder that fails on every input (decode error / library absent). -/
def dxNone : String → Option PaymentPayload := fun _ => none

/-- Fallback decoder that fails on every input. -/
def dbNone : String → Option PaymentPayload := fun _ => none

/-- A decoded payload whose nested `authorization.from` is `0xBBB`. -/
def payB : PaymentPayload := ⟨some ⟨some ⟨some "0xBBB"⟩, none⟩⟩

/-- A decoded payload whose nested `authorization.from` is `0xCCC`. -/
def payNestedC : PaymentPayload := ⟨some ⟨some ⟨some "0xCCC"⟩, none⟩⟩

/-- A decoded payload with only a flat `from` equal to `0xCCC`. -/
def payFlatC : PaymentPayload := ⟨some ⟨none, some "0xCCC"⟩⟩

/-- Decoder returning `payB` for every header value. -/
def dxB : String → Option PaymentPayload := fun _ => some payB

/-- Decoder returning the nested-shape payload for every header value. -/
def dxNested : String → Option PaymentPayload := fun _ => some payNestedC

/-- Decoder returning the flat-shape payload for every header value. -/
def dxFlat : String → Option PaymentPayload := fun _ => some payFlatC

/-- Headers carrying both the already-verified header and a payment proof. -/
def hsC3 : HeaderMap := [("x-payer-address", "0xAAA"), ("PAYMENT-SIGNATURE", "sig")]

/-- Headers carrying only a payment-proof header. -/
def hsC4 : HeaderMap := [("PAYMENT-SIGNATURE", "p1")]

/-- Headers whose payment-proof header holds non-decodable garbage. -/
def hsGarbage : HeaderMap := [("PAYMENT-SIGNATURE", "garbage")]

/-- Headers with no relevant entries at all. -/
def hsEmpty : HeaderMap := []

/-- A plain 200 JSON response. -/
def okResponse : Response :=
  { status := 200
    headers := [("content-type", "application/json")]
    bodyText := "\x7b\"ok\":true\x7d"
    bodyReadFails := false }

/-- A handler that returns `okResponse` and never asserts a wallet. -/
def handlerOk : Handler := fun _ _ => { setCalls := [], result := .ok okResponse }

/-- A 402 challenge response, as thrown by the SIWX auth pattern. -/
def challengeResp : Response :=
  { status := 402
    headers := [("content-type", "application/json")]
    bodyText := "payment required"
    bodyReadFails := false }

/-- A handler that throws the challenge response. -/
def handlerThrowResp : Handler :=
  fun _ _ => { setCalls := [], result := .throwResponse challengeResp }

/-- A thrown `Error` instance with message `boom` (objects are truthy). -/
def errBoom : ErrVal := { truthy := true, isErrorInstance := true, message := "boom" }

/-- A handler that throws `errBoom`. -/
def handlerThrowErr : Handler :=
  fun _ _ => { setCalls := [], result := .throwError errBoom }

/-- A thrown falsy value (`throw null` / `reject()` with no reason): not an
`Error` instance, not truthy. -/
def errFalsy : ErrVal := { truthy := false, isErrorInstance := false, message := "" }

/-- A handler that throws the falsy value. -/
def handlerThrowFalsy : Handler :=
  fun _ _ => { setCalls := [], result := .throwError errFalsy }

/-- A handler that asserts the verified wallet twice, then returns 200. -/
def handlerSetTwice : Handler :=
  fun _ _ => { setCalls := ["0xAAA", "0xDDD"], result := .ok okResponse }

/-- A GET request with no header-read faults. -/
def reqPlain : Request :=
  { headers := []
    failOn := fun _ => false
    method := "GET"
    pathname := "/p"
    urlOrigin := "https://srv.example"
    bodyText := ""
    bodyReadFails := false }

/-- A request carrying wallet, client, session and referer headers, whose read
of `X-Client-ID` throws and whose other reads succeed. -/
def reqC7 : Request :=
  { headers := [("X-Wallet-Address", "0xAB"), ("X-Client-ID", "poncho"),
                ("X-Session-ID", "sess1"), ("Referer", "https://r.example")]
    failOn := fun n => n == "X-Client-ID"
    method := "GET"
    pathname := "/api/x"
    urlOrigin := "https://srv.example"
    bodyText := ""
    bodyReadFails := false }

/-- Headers carrying all five identity-block header names. -/
def fullHeaders : HeaderMap :=
  [("X-Wallet-Address", "0xAB"), ("X-Client-ID", "poncho"),
   ("X-Session-ID", "sess1"), ("Referer", "https://r.example"),
   ("content-type", "application/json")]

/-- A request with all identity headers present whose read of exactly the
header named `n` throws. -/
def reqFailAt (n : String) : Request :=
  { headers := fullHeaders
    failOn := fun m => m == n
    method := "GET"
    pathname := "/api/x"
    urlOrigin := "https://srv.example"
    bodyText := ""
    bodyReadFails := false }

/-- A fault-free request whose URL origin is `https://a.example`. -/
def reqOriginA : Request :=
  { headers := [("X-Wallet-Address", "0xAB")]
    failOn := fun _ => false
    method := "GET"
    pathname := "/p"
    urlOrigin := "https://a.example"
    bodyText := ""
    bodyReadFails := false }

/-- The same request as `reqOriginA` except for the URL origin. -/
def reqOriginB : Request :=
  { reqOriginA with urlOrigin := "https://b.example" }

/-!
Helper lemmas.
-/

/-- With non-failing header reads, the fallible payment-header chain computes
`paymentHeaderOf` and then the falsy check and decode step. -/
theorem paymentChain_total (dx db : String → Option PaymentPayload) (hs : HeaderMap) :
    paymentSection dx db (fun n => .ok (hget hs n)) =
      .ok (match paymentHeaderOf hs with
           | none => none
           | some h => if h.isEmpty then none else decodePayment dx db h) := by
  unfold paymentSection paymentHeaderOf orElseGet
  rcases e1 : hget hs "PAYMENT-SIGNATURE" with _ | v1 <;>
    rcases e2 : hget hs "payment-signature" with _ | v2 <;>
      rcases e3 : hget hs "X-PAYMENT" with _ | v3 <;>
        rcases e4 : hget hs "x-payment" with _ | v4 <;>
          simp [e1, e2, e3, e4, apply_ite] <;> (try (split <;> simp_all))

/-- When the nested `authorization.from` is present it is the payer. -/
theorem payloadFrom_nested (pay : PaymentPayload) (s : String)
    (h : nestedFromOf pay = some s) : payloadFrom pay = some s := by
  unfold payloadFrom
  unfold nestedFromOf at h
  simp [h]

/-- When the nested shape is absent, the flat `from` is the payer. -/
theorem payloadFrom_flat (pay : PaymentPayload) (s : String)
    (h1 : nestedFromOf pay = none) (h2 : flatFromOf pay = some s) :
    payloadFrom pay = some s := by
  unfold payloadFrom
  unfold nestedFromOf at h1
  unfold flatFromOf at h2
  simp [h1, h2]

/-- Folding the setter's assignments over any initial value keeps exactly the
last assignment, lower-cased. -/
theorem lastSetWins (l : List String) (a : String) (init : Option String)
    (h : l.getLast? = some a) :
    l.foldl (fun _ x => some (jsToLower x)) init = some (jsToLower a) := by
  induction l generalizing init with
  | nil => simp at h
  | cons x xs ih =>
    cases xs with
    | nil =>
      simp [List.getLast?] at h
      simp [h]
    | cons y ys =>
      have h2 : (y :: ys).getLast? = some a := by
        simpa [List.getLast?_cons_cons] using h
      simp only [List.foldl_cons]
      exact ih (some (jsToLower x)) h2

/-!
Claim theorems.
-/

/-- C1: for every request processed by the wrapped handler produced by
`withTelemetry` — whether the inner handler returns normally, throws a
well-formed response object, or throws any other error — exactly one
record-write attempt (one call to the sink insert operation) occurs. -/
theorem withTelemetry_exactly_one_insert_attempt
    (dx db : String → Option PaymentPayload) (originCfg : Option String)
    (sinkFails : Bool) (handler : Handler) (requestId : String)
    (elapsedMs nowMs : Nat) (req : Request) :
    (withTelemetry dx db originCfg sinkFails handler requestId elapsedMs nowMs req).inserts.length
      = 1 := rfl

/-- C2: for every request, the response (more generally, the whole
caller-visible outcome, return or re-thrown error) of the wrapper is identical
whether the sink insert succeeds or fails; the attempted record is identical
too. -/
theorem withTelemetry_sink_isolation
    (dx db : String → Option PaymentPayload) (originCfg : Option String)
    (handler : Handler) (requestId : String) (elapsedMs nowMs : Nat) (req : Request) :
    (withTelemetry dx db originCfg true handler requestId elapsedMs nowMs req).outcome
      = (withTelemetry dx db originCfg false handler requestId elapsedMs nowMs req).outcome ∧
    (withTelemetry dx db originCfg true handler requestId elapsedMs nowMs req).inserts
      = (withTelemetry dx db originCfg false handler requestId elapsedMs nowMs req).inserts :=
  ⟨rfl, rfl⟩

/-- C3: whenever the already-verified header `x-payer-address` is present and
non-empty, `extractVerifiedWallet` returns its value lower-cased, for any
decoders and hence regardless of any payment-proof header also present. -/
theorem extractVerifiedWallet_payer_header_priority
    (dx db : String → Option PaymentPayload) (hs : HeaderMap) (p : String)
    (h1 : hget hs "x-payer-address" = some p) (h2 : p.isEmpty = false) :
    extractVerifiedWallet dx db hs = some (jsToLower p) := by
  simp [extractVerifiedWallet, extractVerifiedWalletWith, extractVerifiedWalletE, h1, h2]

/-- Witness for C3: with `x-payer-address = 0xAAA` and a payment-proof header
whose decode would yield `0xBBB`, the extractor returns `0xaaa`. -/
theorem extractVerifiedWallet_payer_header_priority_witness :
    hget hsC3 "x-payer-address" = some "0xAAA" ∧
    hget hsC3 "PAYMENT-SIGNATURE" = some "sig" ∧
    extractVerifiedWallet dxB dbNone hsC3 = some "0xaaa" :=
  ⟨by decide, by decide,
   by rw [extractVerifiedWallet_payer_header_priority dxB dbNone hsC3 "0xAAA"
       (by decide) (by decide)]; rfl⟩

/-- C4: with no already-verified header and a decodable payment-proof header,
the extractor returns the nested `authorization.from` lower-cased when that
field is present, and otherwise the flat `from` lower-cased — nested first. -/
theorem extractVerifiedWallet_decode_nested_then_flat
    (dx db : String → Option PaymentPayload) (hs : HeaderMap) (h : String)
    (pay : PaymentPayload)
    (h1 : hget hs "x-payer-address" = none)
    (h2 : paymentHeaderOf hs = some h)
    (h3 : h.isEmpty = false)
    (h4 : dx h = some pay) :
    (∀ s, nestedFromOf pay = some s →
        extractVerifiedWallet dx db hs = some (jsToLower s)) ∧
    (nestedFromOf pay = none → ∀ s, flatFromOf pay = some s →
        extractVerifiedWallet dx db hs = some (jsToLower s)) := by
  have hc := paymentChain_total dx db hs
  constructor
  · intro s hs1
    simp only [extractVerifiedWallet, extractVerifiedWalletWith, extractVerifiedWalletE, h1, hc,
      h2, h3, decodePayment, h4]
    rw [payloadFrom_nested pay s hs1]
    simp [h3]
  · intro hnone s hs1
    simp only [extractVerifiedWallet, extractVerifiedWalletWith, extractVerifiedWalletE, h1, hc,
      h2, h3, decodePayment, h4]
    rw [payloadFrom_flat pay s hnone hs1]
    simp [h3]

/-- Witness for C4: a payment header decoding to nested
`authorization.from = 0xCCC` yields `0xccc`; the same with only a flat `from`
also yields `0xccc`. -/
theorem extractVerifiedWallet_decode_nested_then_flat_witness :
    extractVerifiedWallet dxNested dbNone hsC4 = some "0xccc" ∧
    extractVerifiedWallet dxFlat dbNone hsC4 = some "0xccc" := by
  constructor
  · rw [(extractVerifiedWallet_decode_nested_then_flat dxNested dbNone hsC4 "p1" payNestedC
      (by decide) (by decide) (by decide) rfl).1 "0xCCC" (by decide)]
    rfl
  · rw [(extractVerifiedWallet_decode_nested_then_flat dxFlat dbNone hsC4 "p1" payFlatC
      (by decide) (by decide) (by decide) rfl).2 (by decide) "0xCCC" (by decide)]
    rfl

/-- C5: `extractVerifiedWallet` is a total function into an optional value (its
codomain is `Option String`, so in this embedding it can never raise), and it
returns the absent value both when the payment-proof header holds
non-decodable garbage (both decoders fail) and when no relevant header is
present at all. -/
theorem extractVerifiedWallet_absent_on_garbage_or_no_headers
    (dx db : String → Option PaymentPayload) (hs : HeaderMap) :
    ((∀ g, hget hs "x-payer-address" = none → paymentHeaderOf hs = some g →
        g.isEmpty = false → dx g = none → db g = none →
        extractVerifiedWallet dx db hs = none) ∧
     (hget hs "x-payer-address" = none → paymentHeaderOf hs = none →
        extractVerifiedWallet dx db hs = none)) := by
  have hc := paymentChain_total dx db hs
  constructor
  · intro g h1 h2 h3 h4 h5
    simp only [extractVerifiedWallet, extractVerifiedWalletWith, extractVerifiedWalletE, h1, hc,
      h2, h3, decodePayment, h4, h5]
    simp [h3]
  · intro h1 h2
    simp only [extractVerifiedWallet, extractVerifiedWalletWith, extractVerifiedWalletE, h1, hc, h2]

/-- Witness for C5: garbage payment header yields absent; no relevant headers
yields absent. -/
theorem extractVerifiedWallet_absent_on_garbage_or_no_headers_witness :
    extractVerifiedWallet dxNone dbNone hsGarbage = none ∧
    extractVerifiedWallet dxNone dbNone hsEmpty = none :=
  ⟨(extractVerifiedWallet_absent_on_garbage_or_no_headers dxNone dbNone hsGarbage).1 "garbage"
      (by decide) (by decide) (by decide) rfl rfl,
   (extractVerifiedWallet_absent_on_garbage_or_no_headers dxNone dbNone hsEmpty).2
      (by decide) (by decide)⟩

/-- C6 counterexample: the claim says every non-response thrown error is
re-raised after the write attempt; but telemetry.ts:135 guards the re-throw
with `handlerError &&`, so a falsy thrown value (`throw null`, `reject()`) is
not re-raised — the wrapper returns the synthesized 500 response instead. -/
theorem falsy_throw_not_reraised_counterexample :
    errFalsy.truthy = false ∧
    (withTelemetry dxNone dbNone none false handlerThrowFalsy "idF" 0 0 reqPlain).outcome
      = .ok (jsonErrorResponse "Internal server error") ∧
    ((withTelemetry dxNone dbNone none false handlerThrowFalsy "idF" 0 0 reqPlain).inserts.map
        (fun i => i.status_code)) = [500] ∧
    ¬ ((withTelemetry dxNone dbNone none false handlerThrowFalsy "idF" 0 0 reqPlain).outcome
        = .error errFalsy) := by
  refine ⟨rfl, rfl, by decide, ?_⟩
  intro h
  exact Except.noConfusion ((rfl :
    (withTelemetry dxNone dbNone none false handlerThrowFalsy "idF" 0 0 reqPlain).outcome
      = Except.ok (jsonErrorResponse "Internal server error")).symm.trans h)

/-- C6 amended: when the handler throws a well-formed response object the
wrapper takes that response as the outcome without re-raising; when it throws
any other error, the record uses the synthesized 500 response carrying the
error's message when available, and after the write attempt the original error
is re-raised unmodified when it is truthy (every genuine `Error` instance is),
while a falsy thrown value is not re-raised — the synthesized 500 response is
returned instead. -/
theorem withTelemetry_error_normalization
    (dx db : String → Option PaymentPayload) (originCfg : Option String)
    (sinkFails : Bool) (handler : Handler) (requestId : String)
    (elapsedMs nowMs : Nat) (req : Request) (hb : HandlerBehavior)
    (hh : handler req (ctxFor dx db originCfg req) = hb) :
    ((∀ r, hb.result = .throwResponse r →
        (withTelemetry dx db originCfg sinkFails handler requestId elapsedMs nowMs req).outcome
          = .ok r ∧
        ((withTelemetry dx db originCfg sinkFails handler requestId elapsedMs nowMs req).inserts.map
            (fun i => i.status_code)) = [r.status]) ∧
     (∀ e, hb.result = .throwError e →
        ((withTelemetry dx db originCfg sinkFails handler requestId elapsedMs nowMs req).inserts.map
            (fun i => i.status_code)) = [500] ∧
        ((withTelemetry dx db originCfg sinkFails handler requestId elapsedMs nowMs req).inserts.map
            (fun i => i.response_body)) = [some (errorResponseBody (messageOf e))] ∧
        (e.truthy = true →
          (withTelemetry dx db originCfg sinkFails handler requestId elapsedMs nowMs req).outcome
            = .error e) ∧
        (e.truthy = false →
          (withTelemetry dx db originCfg sinkFails handler requestId elapsedMs nowMs req).outcome
            = .ok (jsonErrorResponse (messageOf e))))) := by
  constructor
  · intro r hr
    simp [withTelemetry, hh, hr]
  · intro e he
    refine ⟨?_, ?_, ?_, ?_⟩
    · simp [withTelemetry, hh, he, jsonErrorResponse]
    · simp [withTelemetry, hh, he, jsonErrorResponse]
    · intro ht
      simp [withTelemetry, hh, he, ht]
    · intro ht
      simp [withTelemetry, hh, he, ht]

/-- Witness for amended C6: a thrown 402 challenge response becomes the outcome
and is recorded with status 402; a thrown truthy `Error` is recorded via the
synthesized 500 response carrying its message and is re-raised; a thrown falsy
value is recorded the same way and the 500 response is returned instead. -/
theorem withTelemetry_error_normalization_witness :
    ((withTelemetry dxNone dbNone none false handlerThrowResp "id6" 0 0 reqPlain).outcome
        = .ok challengeResp ∧
     ((withTelemetry dxNone dbNone none false handlerThrowResp "id6" 0 0 reqPlain).inserts.map
        (fun i => i.status_code)) = [402]) ∧
    ((withTelemetry dxNone dbNone none false handlerThrowErr "id6" 0 0 reqPlain).outcome
        = .error errBoom ∧
     ((withTelemetry dxNone dbNone none false handlerThrowErr "id6" 0 0 reqPlain).inserts.map
        (fun i => i.status_code)) = [500] ∧
     ((withTelemetry dxNone dbNone none false handlerThrowErr "id6" 0 0 reqPlain).inserts.map
        (fun i => i.response_body)) = [some (errorResponseBody (messageOf errBoom))]) ∧
    (withTelemetry dxNone dbNone none false handlerThrowFalsy "id6" 0 0 reqPlain).outcome
      = .ok (jsonErrorResponse (messageOf errFalsy)) := by
  refine ⟨?_, ?_, ?_⟩
  · exact (withTelemetry_error_normalization dxNone dbNone none false handlerThrowResp "id6" 0 0
      reqPlain { setCalls := [], result := .throwResponse challengeResp } rfl).1 challengeResp rfl
  · have h := (withTelemetry_error_normalization dxNone dbNone none false handlerThrowErr "id6" 0 0
      reqPlain { setCalls := [], result := .throwError errBoom } rfl).2 errBoom rfl
    exact ⟨h.2.2.1 rfl, h.1, h.2.1⟩
  · exact ((withTelemetry_error_normalization dxNone dbNone none false handlerThrowFalsy "id6" 0 0
      reqPlain { setCalls := [], result := .throwError errFalsy } rfl).2 errFalsy rfl).2.2.2 rfl

/-- C7 counterexample: the claim says a failure of exactly one header read
leaves all other identity fields extracted; but the reads share one try/catch
(telemetry.ts lines 42-55), so with only the `X-Client-ID` read raising, the
present `X-Session-ID` and `Referer` headers are recorded as absent. -/
theorem header_failure_not_isolated_counterexample :
    hget reqC7.headers "X-Session-ID" = some "sess1" ∧
    hget reqC7.headers "Referer" = some "https://r.example" ∧
    reqC7.failOn "X-Client-ID" = true ∧
    reqC7.failOn "X-Wallet-Address" = false ∧
    reqC7.failOn "X-Session-ID" = false ∧
    reqC7.failOn "Referer" = false ∧
    ¬ (((withTelemetry dxNone dbNone none false handlerOk "id7" 0 0 reqC7).inserts.map
          (fun i => i.session_id)) = [some "sess1"]) ∧
    ((withTelemetry dxNone dbNone none false handlerOk "id7" 0 0 reqC7).inserts.map
        (fun i => i.session_id)) = [none] := by
  decide

/-- C7 amended: a single header-read failure never aborts the request or the
record write (exactly one write attempt still occurs, unconditionally), and
identity fields read before the failing header keep their extracted values;
but extraction of the remaining identity fields is aborted — they are recorded
with their defaults, not extracted. One case per read of the block, in source
order: X-Wallet-Address, X-Client-ID, X-Session-ID, Referer, content-type. -/
theorem header_failure_keeps_prefix_and_still_records
    (dx db : String → Option PaymentPayload) (originCfg : Option String)
    (sinkFails : Bool) (handler : Handler) (requestId : String)
    (elapsedMs nowMs : Nat) (req : Request) :
    (withTelemetry dx db originCfg sinkFails handler requestId elapsedMs nowMs req).inserts.length
      = 1 ∧
    (req.failOn "X-Wallet-Address" = true →
      ((withTelemetry dx db originCfg sinkFails handler requestId elapsedMs nowMs req).inserts.map
          (fun i => (i.x_wallet_address, i.x_client_id, i.session_id, i.referer,
            i.request_content_type, i.route, i.method, i.origin)))
        = [(none, none, none, none, none, "", "", "")]) ∧
    (req.failOn "X-Wallet-Address" = false → req.failOn "X-Client-ID" = true →
      ((withTelemetry dx db originCfg sinkFails handler requestId elapsedMs nowMs req).inserts.map
          (fun i => (i.x_wallet_address, i.x_client_id, i.session_id, i.referer,
            i.request_content_type, i.route, i.method, i.origin)))
        = [((hget req.headers "X-Wallet-Address").map jsToLower,
            none, none, none, none, "", "", "")]) ∧
    (req.failOn "X-Wallet-Address" = false → req.failOn "X-Client-ID" = false →
      req.failOn "X-Session-ID" = true →
      ((withTelemetry dx db originCfg sinkFails handler requestId elapsedMs nowMs req).inserts.map
          (fun i => (i.x_wallet_address, i.x_client_id, i.session_id, i.referer,
            i.request_content_type, i.route, i.method, i.origin)))
        = [((hget req.headers "X-Wallet-Address").map jsToLower,
            hget req.headers "X-Client-ID", none, none, none, "", "", "")]) ∧
    (req.failOn "X-Wallet-Address" = false → req.failOn "X-Client-ID" = false →
      req.failOn "X-Session-ID" = false → req.failOn "Referer" = true →
      ((withTelemetry dx db originCfg sinkFails handler requestId elapsedMs nowMs req).inserts.map
          (fun i => (i.x_wallet_address, i.x_client_id, i.session_id, i.referer,
            i.request_content_type, i.route, i.method, i.origin)))
        = [((hget req.headers "X-Wallet-Address").map jsToLower,
            hget req.headers "X-Client-ID", hget req.headers "X-Session-ID",
            none, none, "", "", "")]) ∧
    (req.failOn "X-Wallet-Address" = false → req.failOn "X-Client-ID" = false →
      req.failOn "X-Session-ID" = false → req.failOn "Referer" = false →
      req.failOn "content-type" = true →
      ((withTelemetry dx db originCfg sinkFails handler requestId elapsedMs nowMs req).inserts.map
          (fun i => (i.x_wallet_address, i.x_client_id, i.session_id, i.referer,
            i.request_content_type, i.route, i.method, i.origin)))
        = [((hget req.headers "X-Wallet-Address").map jsToLower,
            hget req.headers "X-Client-ID", hget req.headers "X-Session-ID",
            hget req.headers "Referer", none, "", "", "")]) := by
  refine ⟨rfl, ?_, ?_, ?_, ?_, ?_⟩
  · intro h1
    simp [withTelemetry, extractIdentity, Request.getH, h1]
  · intro h1 h2
    simp [withTelemetry, extractIdentity, Request.getH, h1, h2]
  · intro h1 h2 h3
    simp [withTelemetry, extractIdentity, Request.getH, h1, h2, h3]
  · intro h1 h2 h3 h4
    simp [withTelemetry, extractIdentity, Request.getH, h1, h2, h3, h4]
  · intro h1 h2 h3 h4 h5
    simp [withTelemetry, extractIdentity, Request.getH, h1, h2, h3, h4, h5]

/-- Witness for amended C7: with all five identity headers present and the read
of exactly one of them failing, the fields read before the failing one are
recorded extracted (wallet lower-cased) and the rest default — one concrete run
per failing read. -/
theorem header_failure_keeps_prefix_and_still_records_witness :
    (withTelemetry dxNone dbNone none false handlerOk "id7a" 0 0
        (reqFailAt "X-Wallet-Address")).inserts.length = 1 ∧
    ((withTelemetry dxNone dbNone none false handlerOk "id7a" 0 0
        (reqFailAt "X-Wallet-Address")).inserts.map
        (fun i => (i.x_wallet_address, i.x_client_id, i.session_id, i.referer,
          i.request_content_type, i.route, i.method, i.origin)))
      = [(none, none, none, none, none, "", "", "")] ∧
    ((withTelemetry dxNone dbNone none false handlerOk "id7a" 0 0
        (reqFailAt "X-Client-ID")).inserts.map
        (fun i => (i.x_wallet_address, i.x_client_id, i.session_id, i.referer,
          i.request_content_type, i.route, i.method, i.origin)))
      = [(some "0xab", none, none, none, none, "", "", "")] ∧
    ((withTelemetry dxNone dbNone none false handlerOk "id7a" 0 0
        (reqFailAt "X-Session-ID")).inserts.map
        (fun i => (i.x_wallet_address, i.x_client_id, i.session_id, i.referer,
          i.request_content_type, i.route, i.method, i.origin)))
      = [(some "0xab", some "poncho", none, none, none, "", "", "")] ∧
    ((withTelemetry dxNone dbNone none false handlerOk "id7a" 0 0
        (reqFailAt "Referer")).inserts.map
        (fun i => (i.x_wallet_address, i.x_client_id, i.session_id, i.referer,
          i.request_content_type, i.route, i.method, i.origin)))
      = [(some "0xab", some "poncho", some "sess1", none, none, "", "", "")] ∧
    ((withTelemetry dxNone dbNone none false handlerOk "id7a" 0 0
        (reqFailAt "content-type")).inserts.map
        (fun i => (i.x_wallet_address, i.x_client_id, i.session_id, i.referer,
          i.request_content_type, i.route, i.method, i.origin)))
      = [(some "0xab", some "poncho", some "sess1", some "https://r.example",
          none, "", "", "")] := by
  refine ⟨?_, ?_, ?_, ?_, ?_, ?_⟩
  · exact (header_failure_keeps_prefix_and_still_records dxNone dbNone none false handlerOk
      "id7a" 0 0 (reqFailAt "X-Wallet-Address")).1
  · rw [(header_failure_keeps_prefix_and_still_records dxNone dbNone none false handlerOk
      "id7a" 0 0 (reqFailAt "X-Wallet-Address")).2.1 (by decide)]
  · rw [(header_failure_keeps_prefix_and_still_records dxNone dbNone none false handlerOk
      "id7a" 0 0 (reqFailAt "X-Client-ID")).2.2.1 (by decide) (by decide)]
    rfl
  · rw [(header_failure_keeps_prefix_and_still_records dxNone dbNone none false handlerOk
      "id7a" 0 0 (reqFailAt "X-Session-ID")).2.2.2.1 (by decide) (by decide) (by decide)]
    rfl
  · rw [(header_failure_keeps_prefix_and_still_records dxNone dbNone none false handlerOk
      "id7a" 0 0 (reqFailAt "Referer")).2.2.2.2.1 (by decide) (by decide) (by decide) (by decide)]
    rfl
  · rw [(header_failure_keeps_prefix_and_still_records dxNone dbNone none false handlerOk
      "id7a" 0 0 (reqFailAt "content-type")).2.2.2.2.2 (by decide) (by decide) (by decide)
      (by decide) (by decide)]
    rfl

/-- C8: when the handler calls `ctx.setVerifiedWallet` at least once, the
record's verified-wallet field is the argument of the last call, lower-cased,
overriding whatever automatic extraction produced. -/
theorem setVerifiedWallet_last_write_wins
    (dx db : String → Option PaymentPayload) (originCfg : Option String)
    (sinkFails : Bool) (handler : Handler) (requestId : String)
    (elapsedMs nowMs : Nat) (req : Request) (hb : HandlerBehavior) (a : String)
    (hh : handler req (ctxFor dx db originCfg req) = hb)
    (hl : hb.setCalls.getLast? = some a) :
    ((withTelemetry dx db originCfg sinkFails handler requestId elapsedMs nowMs req).inserts.map
        (fun i => i.verified_wallet_address)) = [some (jsToLower a)] := by
  simp [withTelemetry, hh, lastSetWins _ _ _ hl]

/-- Witness for C8: calling the setter with `0xAAA` then `0xDDD` leaves only
`0xddd` in the record. -/
theorem setVerifiedWallet_last_write_wins_witness :
    ((withTelemetry dxNone dbNone none false handlerSetTwice "id8" 0 0 reqPlain).inserts.map
        (fun i => i.verified_wallet_address)) = [some "0xddd"] := by
  rw [setVerifiedWallet_last_write_wins dxNone dbNone none false handlerSetTwice "id8" 0 0
    reqPlain { setCalls := ["0xAAA", "0xDDD"], result := .ok okResponse } "0xDDD" rfl (by decide)]
  rfl

/-- C9 counterexample: with no configured origin, `origin` is taken from
`request.nextUrl.origin`, which is caller-influenced; two requests identical
except for their URL origin produce records with different `origin` values,
refuting the claim that the field never derives from caller-supplied data. -/
theorem origin_request_fallback_counterexample :
    reqOriginA.headers = reqOriginB.headers ∧
    reqOriginA.method = reqOriginB.method ∧
    reqOriginA.pathname = reqOriginB.pathname ∧
    reqOriginA.bodyText = reqOriginB.bodyText ∧
    ((withTelemetry dxNone dbNone none false handlerOk "id9" 0 0 reqOriginA).inserts.map
        (fun i => i.origin)) = ["https://a.example"] ∧
    ((withTelemetry dxNone dbNone none false handlerOk "id9" 0 0 reqOriginB).inserts.map
        (fun i => i.origin)) = ["https://b.example"] ∧
    ¬ (((withTelemetry dxNone dbNone none false handlerOk "id9" 0 0 reqOriginA).inserts.map
          (fun i => i.origin))
        = ((withTelemetry dxNone dbNone none false handlerOk "id9" 0 0 reqOriginB).inserts.map
          (fun i => i.origin))) :=
  ⟨rfl, rfl, rfl, rfl, by decide, by decide, by decide⟩

/-- C9 amended: when an origin is configured at initialization and the identity
try-block's header reads do not fault, every record's origin equals the
configured value, independent of any caller-controlled input; without a
configured origin the field falls back to the request URL's origin. -/
theorem origin_configured_independent_of_request
    (dx db : String → Option PaymentPayload) (o : String)
    (sinkFails : Bool) (handler : Handler) (requestId : String)
    (elapsedMs nowMs : Nat) (req : Request)
    (h1 : req.failOn "X-Wallet-Address" = false)
    (h2 : req.failOn "X-Client-ID" = false)
    (h3 : req.failOn "X-Session-ID" = false)
    (h4 : req.failOn "Referer" = false)
    (h5 : req.failOn "content-type" = false) :
    ((withTelemetry dx db (some o) sinkFails handler requestId elapsedMs nowMs req).inserts.map
        (fun i => i.origin)) = [o] := by
  simp [withTelemetry, extractIdentity, Request.getH, h1, h2, h3, h4, h5, getOrigin]

/-- Witness for amended C9: with origin configured to `https://cfg.example`,
the record carries exactly that origin. -/
theorem origin_configured_independent_of_request_witness :
    ((withTelemetry dxNone dbNone (some "https://cfg.example") false handlerOk "id9a" 0 0
        reqOriginA).inserts.map (fun i => i.origin)) = ["https://cfg.example"] :=
  origin_configured_independent_of_request dxNone dbNone "https://cfg.example" false handlerOk
    "id9a" 0 0 reqOriginA rfl rfl rfl rfl rfl

/-- C10: the record's `status_text` is a function of the status code alone —
the ten known codes map to their canonical reason phrases, every other code to
its decimal string, and every record's `status_text` equals
`statusTextFromCode` of its `status_code`. -/
theorem statusTextFromCode_mapping :
    (statusTextFromCode 200 = "OK" ∧ statusTextFromCode 201 = "Created" ∧
     statusTextFromCode 204 = "No Content" ∧ statusTextFromCode 400 = "Bad Request" ∧
     statusTextFromCode 401 = "Unauthorized" ∧ statusTextFromCode 402 = "Payment Required" ∧
     statusTextFromCode 403 = "Forbidden" ∧ statusTextFromCode 404 = "Not Found" ∧
     statusTextFromCode 500 = "Internal Server Error" ∧
     statusTextFromCode 504 = "Gateway Timeout") ∧
    (∀ c : Nat, c ∉ ([200, 201, 204, 400, 401, 402, 403, 404, 500, 504] : List Nat) →
      statusTextFromCode c = toString c) ∧
    (∀ (dx db : String → Option PaymentPayload) (originCfg : Option String)
       (sinkFails : Bool) (handler : Handler) (requestId : String)
       (elapsedMs nowMs : Nat) (req : Request),
      ((withTelemetry dx db originCfg sinkFails handler requestId elapsedMs nowMs req).inserts.map
          (fun i => i.status_text))
        = ((withTelemetry dx db originCfg sinkFails handler requestId elapsedMs nowMs
            req).inserts.map (fun i => statusTextFromCode i.status_code))) := by
  refine ⟨by norm_num [statusTextFromCode], ?_, ?_⟩
  · intro c hc
    simp only [List.mem_cons, List.mem_singleton] at hc
    push_neg at hc
    obtain ⟨n1, n2, n3, n4, n5, n6, n7, n8, n9, n10⟩ := hc
    simp [statusTextFromCode, n1, n2, n3, n4, n5, n6, n7, n8, n9, n10]
  · intro dx db originCfg sinkFails handler requestId elapsedMs nowMs req
    rfl

/-- Witness for C10: a known code maps to its phrase; an unlisted code (418)
maps to its decimal string. -/
theorem statusTextFromCode_mapping_witness :
    statusTextFromCode 200 = "OK" ∧ statusTextFromCode 418 = "418" :=
  ⟨statusTextFromCode_mapping.1.1,
   by rw [statusTextFromCode_mapping.2.1 418 (by decide)]; rfl⟩
